import Mathlib

/-!
Shallow embedding of the validation engine of the gltf-validator-for-usd
repository (src/src/components/GLTFValidator.tsx) together with theorems
settling the behavioural claims about it.  Pure data is modelled with
plain Lean structures; the mutable `results` array that the rules push
into is modelled by returning the list of findings each rule appends, in
push order.  JavaScript numbers that matter here (texture dimensions,
vertex counts, scale components, keyframe values) are modelled by `Nat`
and `Rat`; the one place where JavaScript `NaN` semantics is observable
(reading past the end of a keyframe value array) is modelled explicitly
by the `JSNum` type.
-/

namespace GltfUsd

/-! ## String helpers (models of the JavaScript string operations used) -/

/-- Model of `l` starting with the character sequence `pat`. -/
def listStartsWith : List Char → List Char → Bool
  | _, [] => true
  | [], _ :: _ => false
  | a :: as, b :: bs => a == b && listStartsWith as bs

/-- Model of JavaScript `String.prototype.includes` on character lists:
`pat` occurs contiguously somewhere in `l`. -/
def listContainsSeq : List Char → List Char → Bool
  | [], pat => listStartsWith [] pat
  | l@(_ :: rest), pat => listStartsWith l pat || listContainsSeq rest pat

/-- Model of JavaScript `s.includes(pat)`. -/
def strContainsSub (s pat : String) : Bool :=
  listContainsSeq s.toList pat.toList

/-- Whether the string `s` ends with `pat`. -/
def strEndsWithSub (s pat : String) : Bool :=
  listStartsWith s.toList.reverse pat.toList.reverse

/-- Number of (possibly overlapping) occurrences of a nonempty pattern in `l`. -/
def countOccurAux : List Char → List Char → Nat
  | [], _ => 0
  | l@(_ :: rest), pat => (if listStartsWith l pat then 1 else 0) + countOccurAux rest pat

/-- Number of occurrences of the nonempty pattern `pat` in `s`. -/
def countOccur (s pat : String) : Nat :=
  countOccurAux s.toList pat.toList

/-- Model of JavaScript `toLowerCase` (ASCII letters; the sources compared
here are file names and URIs). -/
def lowerAscii (s : String) : String :=
  String.mk (s.toList.map Char.toLower)

/-- Split a character list at every occurrence of `sep` (model of JavaScript
`split` with a one-character separator, which is the only form the
validator uses). -/
def splitOnChar (sep : Char) : List Char → List (List Char)
  | [] => [[]]
  | c :: rest =>
    if c == sep then [] :: splitOnChar sep rest
    else
      match splitOnChar sep rest with
      | g :: gs => (c :: g) :: gs
      | [] => [[c]]

/-- Model of `s.split(sep)` for a one-character separator. -/
def splitChar (sep : Char) (s : String) : List String :=
  (splitOnChar sep s.toList).map String.mk

/-- Model of the regular expression `/[^\x00-\x7F]/.test s`: some character
is outside the 7-bit ASCII range. -/
def hasNonAscii (s : String) : Bool :=
  s.toList.any (fun c => 0x7F < c.toNat)

/-- Model of `s.includes(" ")`. -/
def hasSpace (s : String) : Bool :=
  s.toList.contains ' '

/-- Groups of at most three characters, taken from the front. -/
def chunk3 : List Char → List (List Char)
  | [] => []
  | a :: b :: c :: rest => [a, b, c] :: chunk3 rest
  | l => [l]

/-- Model of `Number.prototype.toLocaleString` for a natural number in the
en-US locale: decimal digits with a comma every three digits from the right. -/
def localeString (n : Nat) : String :=
  String.mk ((List.intercalate [','] (chunk3 (toString n).toList.reverse)).reverse)

/-- Model of `Number.prototype.toLocaleString` for the (always nonnegative)
rounded counts produced by the rules, carried as `Int`. -/
def localeInt (n : Int) : String :=
  localeString n.toNat

/-- Model of JavaScript `Math.round` on an exact rational: round half toward
positive infinity. -/
def jsRound (q : Rat) : Int :=
  ⌊q + 1 / 2⌋

/-- Model of `src.split("/").pop()?.split("?")[0] || src`: the final path
segment stripped of a query string, falling back to `src` itself when that
segment is empty. -/
def filenameOf (src : String) : String :=
  let seg := (splitChar '/' src).getLastD ""
  let f := (splitChar '?' seg).headD ""
  if f == "" then src else f

/-- Model of `track.name.split(".")[0]`: the part before the first dot. -/
def trackTargetPath (name : String) : String :=
  (splitChar '.' name).headD ""

/-! ## Data model (the shapes of the three.js objects the rules read) -/

/-- Severity of one finding (`type` field of `ValidationResult`). -/
inductive Severity where
  | error
  | warning
  | info
deriving DecidableEq

/-- One diagnostic finding, as pushed by the rules. -/
structure ValidationResult where
  type : Severity
  message : String
  details : Option String
deriving DecidableEq

/-- The decoded image backing a texture: pixel dimensions plus the source
reference (`texture.image.src`), `none` when the field is absent. -/
structure Image where
  width : Nat
  height : Nat
  src : Option String
deriving DecidableEq

/-- A texture.  `id` models JavaScript object identity (references are
compared, and `Set` deduplicates, by reference, not by content);
`image = none` models a texture whose `image` field is not set. -/
structure Texture where
  id : Nat
  name : String
  image : Option Image
deriving DecidableEq

/-- A material.  `isStandard` models `material instanceof
THREE.MeshStandardMaterial`; the six optional slots model the texture
fields the validator reads. -/
structure Material where
  name : String
  isStandard : Bool
  map : Option Texture
  normalMap : Option Texture
  roughnessMap : Option Texture
  metalnessMap : Option Texture
  emissiveMap : Option Texture
  aoMap : Option Texture
deriving DecidableEq

/-- Geometry of a mesh: `position` is the entry count of
`geometry.attributes.position`, `none` when the attribute is absent. -/
structure Geometry where
  position : Option Nat
deriving DecidableEq

/-- The dynamic class of a scene object: plain `Object3D`, `THREE.Mesh`
(carrying its optional geometry and its materials; an absent or falsy
`material` is the empty list), or `THREE.Bone`. -/
inductive ObjKind where
  | group
  | mesh (geometry : Option Geometry) (materials : List Material)
  | bone
deriving DecidableEq

/-- One node of the imported scene graph (`THREE.Object3D`), with the
fields the validator reads: `name`, `uuid`, its dynamic class, the three
scale components, and its children. -/
inductive Obj where
  | mk (name : String) (uuid : String) (kind : ObjKind)
      (scaleX scaleY scaleZ : Rat) (children : List Obj)

def Obj.name : Obj → String
  | .mk n _ _ _ _ _ _ => n

def Obj.uuid : Obj → String
  | .mk _ u _ _ _ _ _ => u

def Obj.kind : Obj → ObjKind
  | .mk _ _ k _ _ _ _ => k

def Obj.scaleX : Obj → Rat
  | .mk _ _ _ x _ _ _ => x

def Obj.scaleY : Obj → Rat
  | .mk _ _ _ _ y _ _ => y

def Obj.scaleZ : Obj → Rat
  | .mk _ _ _ _ _ z _ => z

def Obj.children : Obj → List Obj
  | .mk _ _ _ _ _ _ cs => cs

/-- Whether the object is a `THREE.Mesh`. -/
def isMesh (o : Obj) : Bool :=
  match o.kind with
  | .mesh _ _ => true
  | _ => false

/-- Whether the object is a `THREE.Bone`. -/
def isBone (o : Obj) : Bool :=
  match o.kind with
  | .bone => true
  | _ => false

/-- The materials of a mesh object (empty for non-meshes and for a falsy
`material` field). -/
def meshMaterials (o : Obj) : List Material :=
  match o.kind with
  | .mesh _ mats => mats
  | _ => []

/-- The entry count of the position attribute of the geometry of a mesh,
when the object is a mesh with a geometry carrying that attribute. -/
def meshPosCount (o : Obj) : Option Nat :=
  match o.kind with
  | .mesh (some g) _ => g.position
  | _ => none

mutual

/-- Model of `scene.traverse`: the preorder listing of the object and all
of its descendants, in the order the callback is invoked. -/
def traverseList : Obj → List Obj
  | .mk n u k sx sy sz cs => .mk n u k sx sy sz cs :: traverseListMany cs

def traverseListMany : List Obj → List Obj
  | [] => []
  | c :: cs => traverseList c ++ traverseListMany cs

end

mutual

/-- Preorder listing of a subtree where each listed object is paired with
its ancestor chain (nearest ancestor first); `anc` is the chain of the
root argument.  This is the tree-shaped model of walking `object.parent`
upward. -/
def withAnc : Obj → List Obj → List (Obj × List Obj)
  | .mk n u k sx sy sz cs, anc =>
    (.mk n u k sx sy sz cs, anc) :: withAncMany cs (.mk n u k sx sy sz cs :: anc)

def withAncMany : List Obj → List Obj → List (Obj × List Obj)
  | [], _ => []
  | c :: cs, anc => withAnc c anc ++ withAncMany cs anc

end

mutual

/-- Model of the recursive `checkDepth(object, 0)` of the hierarchy rule:
the number of generations below the object (the object itself has depth 0). -/
def subtreeDepth : Obj → Nat
  | .mk _ _ _ _ _ _ cs => subtreeDepthMany cs

def subtreeDepthMany : List Obj → Nat
  | [] => 0
  | c :: cs => max (subtreeDepth c + 1) (subtreeDepthMany cs)

end

/-- One keyframe track of an animation clip: its target path name and the
flat keyframe value array. -/
structure Track where
  name : String
  values : List Rat
deriving DecidableEq

/-- One animation clip. -/
structure AnimationClip where
  name : String
  tracks : List Track
deriving DecidableEq

/-- The raw glTF JSON document reached through `gltf.parser.json`: only the
declared name lists matter to the validator.  Each entry is the optional
`name` field of the declared node/material/mesh. -/
structure GltfJson where
  nodes : Option (List (Option String))
  materials : Option (List (Option String))
  meshes : Option (List (Option String))
deriving DecidableEq

/-! ## Texture rule (`validateTextures`) -/

/-- Textures added to the `Set` while traversing one object: the `map`,
`normalMap`, `roughnessMap` and `metalnessMap` slots, in that order, of
every `MeshStandardMaterial` of a mesh. -/
def ruleTexturesOf (o : Obj) : List Texture :=
  if isMesh o then
    (meshMaterials o).flatMap (fun m =>
      if m.isStandard then
        [m.map, m.normalMap, m.roughnessMap, m.metalnessMap].filterMap id
      else [])
  else []

/-- Model of iterating a JavaScript `Set` filled by repeated `add`: keep the
first occurrence of each reference (`Texture.id`), in insertion order. -/
def dedupTex (seen : List Nat) : List Texture → List Texture
  | [] => []
  | t :: ts =>
    if seen.contains t.id then dedupTex seen ts else t :: dedupTex (t.id :: seen) ts

/-- The distinct textures the texture rule iterates over. -/
def collectTextures (scene : Obj) : List Texture :=
  dedupTex [] ((traverseList scene).flatMap ruleTexturesOf)

/-- The oversize-texture warning, carrying the texture name (or the
`"Unnamed texture"` fallback) and the exact pixel dimensions. -/
def sizeWarning (name : String) (w h : Nat) : ValidationResult :=
  ⟨.warning, "Texture size too large",
    some ("Texture \"" ++ name ++ "\" has dimensions " ++ toString w ++ "x" ++ toString h ++
      "px. Textures larger than 2000px may cause performance issues. Consider reducing the texture size.")⟩

/-- The texture-format warning (no per-texture data in the source template). -/
def formatWarning : ValidationResult :=
  ⟨.warning, "Texture format optimization recommended",
    some "Converting JPEG/PNG textures to WebP format can reduce file size significantly."⟩

/-- The format test of the texture rule:
`src.toLowerCase()` contains `".jpg"`, `".jpeg"` or `".png"`. -/
def srcFormatHit (src : String) : Bool :=
  strContainsSub (lowerAscii src) ".jpg" || strContainsSub (lowerAscii src) ".jpeg" ||
    strContainsSub (lowerAscii src) ".png"

/-- Size findings for one distinct texture: requires a present `image` and
`width >= 2001 || height >= 2001`. -/
def sizeFindings (t : Texture) : List ValidationResult :=
  match t.image with
  | none => []
  | some img =>
    if 2001 ≤ img.width ∨ 2001 ≤ img.height then
      [sizeWarning (if t.name == "" then "Unnamed texture" else t.name) img.width img.height]
    else []

/-- Format findings for one distinct texture: requires a present `image`
with a truthy `src`. -/
def formatFindings (t : Texture) : List ValidationResult :=
  match t.image with
  | none => []
  | some img =>
    match img.src with
    | none => []
    | some src =>
      if src == "" then [] else if srcFormatHit src then [formatWarning] else []

/-- The texture rule: for each distinct collected texture, the size check
followed by the format check. -/
def validateTextures (scene : Obj) : List ValidationResult :=
  (collectTextures scene).flatMap (fun t => sizeFindings t ++ formatFindings t)

/-! ## Polygon-count rule (`validatePolygonCount`) -/

/-- The position-attribute entry counts of the meshes, in traversal order. -/
def posCounts (scene : Obj) : List Nat :=
  (traverseList scene).filterMap meshPosCount

/-- Total position-attribute entry count of the scene. -/
def posSum (scene : Obj) : Nat :=
  (posCounts scene).sum

/-- The accumulated `totalPolygons`: the sum of `positions.count / 3` over
every mesh with geometry, as an exact rational. -/
def totalPolygonsRat (scene : Obj) : Rat :=
  ((posCounts scene).map (fun (c : Nat) => (c : Rat) / 3)).sum

/-- The polygon-count warning, carrying the rounded count. -/
def polygonWarning (n : Int) : ValidationResult :=
  ⟨.warning, "Polygon count too high",
    some ("Current polygon count: " ++ localeInt n ++
      ". Recommend reducing to under 50,000 for better performance.")⟩

/-- The polygon-count rule: warns when the (unrounded) total exceeds 50,000
and returns `Math.round` of the total. -/
def validatePolygonCount (scene : Obj) : List ValidationResult × Int :=
  (if 50000 < totalPolygonsRat scene then
      [polygonWarning (jsRound (totalPolygonsRat scene))]
    else [],
   jsRound (totalPolygonsRat scene))

/-! ## Mesh-count rule (`validateMeshCount`) -/

/-- Number of mesh objects in the scene. -/
def meshCountOf (scene : Obj) : Nat :=
  ((traverseList scene).filter (fun o => isMesh o)).length

/-- The mesh-count warning, carrying the exact count. -/
def meshCountWarning (n : Nat) : ValidationResult :=
  ⟨.warning, "Mesh count too high",
    some ("Current mesh count: " ++ toString n ++
      ". Having 51 or more meshes may impact performance. Consider combining meshes where possible.")⟩

/-- The mesh-count rule: warns when the count is 51 or more and returns the
count. -/
def validateMeshCount (scene : Obj) : List ValidationResult × Nat :=
  (if 51 ≤ meshCountOf scene then [meshCountWarning (meshCountOf scene)] else [],
   meshCountOf scene)

/-! ## Scale-sign rule (`validateScaleValues`) -/

/-- Findings of the scale-sign rule for one object. -/
def scaleSignFindings (o : Obj) : List ValidationResult :=
  if o.scaleX < 0 ∨ o.scaleY < 0 ∨ o.scaleZ < 0 then
    [⟨.warning, "Negative scale values detected",
      some ("Object \"" ++ (if o.name == "" then "Unnamed" else o.name) ++
        "\" has negative scale values. This may cause object distortion.")⟩]
  else []

/-- The scale-sign rule, over every object of the traversal. -/
def validateScaleValues (scene : Obj) : List ValidationResult :=
  (traverseList scene).flatMap scaleSignFindings

/-! ## Animation-scale rule (`validateAnimations`) -/

/-- A JavaScript number that is either `NaN` or an exact value. -/
inductive JSNum where
  | nan
  | num (q : Rat)
deriving DecidableEq

/-- Model of `values[i]` fed into an arithmetic context: an out-of-range
read yields `undefined`, which behaves as `NaN`. -/
def jsValAt (vs : List Rat) (i : Nat) : JSNum :=
  match vs.get? i with
  | some q => .num q
  | none => .nan

/-- Model of binary `Math.min`: any `NaN` argument contaminates the result. -/
def jsMin2 : JSNum → JSNum → JSNum
  | .nan, _ => .nan
  | _, .nan => .nan
  | .num a, .num b => .num (min a b)

/-- Model of `Math.min(values[0], values[1], values[2])`. -/
def jsMin3 (vs : List Rat) : JSNum :=
  jsMin2 (jsValAt vs 0) (jsMin2 (jsValAt vs 1) (jsValAt vs 2))

/-- The zero-start-scale warning, naming the clip. -/
def scaleAnimWarning (clipName : String) : ValidationResult :=
  ⟨.warning, "Scale animation starts with zero value",
    some ("Animation \"" ++ clipName ++
      "\" has scale starting value set to 0. This may cause object distortion.")⟩

/-- The finding (if any) one track contributes: the track name must contain
`".scale"`, the value array must be nonempty, and
`Math.min(values[0], values[1], values[2]) === 0` must hold. -/
def animTrackFinding (clip : AnimationClip) (track : Track) : Option ValidationResult :=
  if strContainsSub track.name ".scale" then
    if track.values.isEmpty then none
    else if jsMin3 track.values = .num 0 then some (scaleAnimWarning clip.name)
    else none
  else none

/-- The animation-scale rule.  (The source function also receives the scene
but never reads it.) -/
def validateAnimations (animations : List AnimationClip) : List ValidationResult :=
  animations.flatMap (fun clip => clip.tracks.filterMap (animTrackFinding clip))

/-! ## Hierarchy-depth rule (`validateMeshHierarchy`) -/

/-- Findings of the hierarchy rule for one object: meshes whose own subtree
is more than 5 generations deep. -/
def hierarchyFindings (o : Obj) : List ValidationResult :=
  if isMesh o ∧ 5 < subtreeDepth o then
    [⟨.warning, "Deep mesh hierarchy detected",
      some ("Mesh \"" ++ (if o.name == "" then "Unnamed" else o.name) ++
        "\" is in deep hierarchy (" ++ toString (subtreeDepth o) ++
        " levels). This may impact performance.")⟩]
  else []

/-- The hierarchy-depth rule. -/
def validateMeshHierarchy (scene : Obj) : List ValidationResult :=
  (traverseList scene).flatMap hierarchyFindings

/-! ## Naming-convention rule (`validateObjectNames`) -/

/-- The two name checks applied to an object name: `child.name` must be
truthy, then the non-ASCII test and the space test run independently. -/
def objectNameChecks (name : String) : List ValidationResult :=
  (if name != "" && hasNonAscii name then
    [⟨.warning, "Non-ASCII characters in object name",
      some ("Object \"" ++ name ++
        "\" contains non-ASCII characters. Consider using ASCII names for better USD compatibility.")⟩]
  else []) ++
  (if name != "" && hasSpace name then
    [⟨.warning, "Space character in object name",
      some ("Object \"" ++ name ++
        "\" contains spaces. Consider using underscores or camelCase for better USD compatibility.")⟩]
  else [])

/-- The two name checks applied to a material name. -/
def materialNameChecks (name : String) : List ValidationResult :=
  (if name != "" && hasNonAscii name then
    [⟨.warning, "Non-ASCII characters in material name",
      some ("Material \"" ++ name ++
        "\" contains non-ASCII characters. Consider using ASCII names for better USD compatibility.")⟩]
  else []) ++
  (if name != "" && hasSpace name then
    [⟨.warning, "Space character in material name",
      some ("Material \"" ++ name ++
        "\" contains spaces. Consider using underscores or camelCase for better USD compatibility.")⟩]
  else [])

/-- The two name checks applied to the own `name` field of a texture in the
slot labelled `slot`; the whole block is guarded by `texture.name` being
truthy. -/
def textureNameChecks (name slot : String) : List ValidationResult :=
  if name != "" then
    (if hasNonAscii name then
      [⟨.warning, "Non-ASCII characters in texture name",
        some ("Texture \"" ++ name ++ "\" (" ++ slot ++
          ") contains non-ASCII characters. Consider using ASCII names for better USD compatibility.")⟩]
    else []) ++
    (if hasSpace name then
      [⟨.warning, "Space character in texture name",
        some ("Texture \"" ++ name ++ "\" (" ++ slot ++
          ") contains spaces. Consider using underscores or camelCase for better USD compatibility.")⟩]
    else [])
  else []

/-- The two name checks applied to the filename derived from
`texture.image.src` (no truthiness guard on the derived filename). -/
def filenameChecks (filename slot : String) : List ValidationResult :=
  (if hasNonAscii filename then
    [⟨.warning, "Non-ASCII characters in texture filename",
      some ("Texture file \"" ++ filename ++ "\" (" ++ slot ++
        ") contains non-ASCII characters. Consider using ASCII names for better USD compatibility.")⟩]
  else []) ++
  (if hasSpace filename then
    [⟨.warning, "Space character in texture filename",
      some ("Texture file \"" ++ filename ++ "\" (" ++ slot ++
        ") contains spaces. Consider using underscores or camelCase for better USD compatibility.")⟩]
  else [])

/-- The six texture slots the naming rule inspects, with their labels, in
source order. -/
def slotTextures (m : Material) : List (Option Texture × String) :=
  [(m.map, "map"), (m.normalMap, "normalMap"), (m.roughnessMap, "roughnessMap"),
   (m.metalnessMap, "metalnessMap"), (m.emissiveMap, "emissiveMap"), (m.aoMap, "aoMap")]

/-- The naming checks run for one (possibly absent) slot texture: the own
texture name, then the filename derived from a truthy `image.src`. -/
def texSlotChecks (ot : Option Texture × String) : List ValidationResult :=
  match ot.1 with
  | none => []
  | some t =>
    textureNameChecks t.name ot.2 ++
    (match t.image with
     | some img =>
       match img.src with
       | some src => if src != "" then filenameChecks (filenameOf src) ot.2 else []
       | none => []
     | none => [])

/-- All naming findings contributed by one traversed object: its own name,
then (for meshes) each material name and, for standard materials, the six
texture slots. -/
def objFindings (o : Obj) : List ValidationResult :=
  objectNameChecks o.name ++
  (if isMesh o then
    (meshMaterials o).flatMap (fun m =>
      materialNameChecks m.name ++
      (if m.isStandard then (slotTextures m).flatMap texSlotChecks else []))
  else [])

/-- The naming-convention rule. -/
def validateObjectNames (scene : Obj) : List ValidationResult :=
  (traverseList scene).flatMap objFindings

/-! ## Duplicate-identifier rule (`validateUniqueIds`) -/

/-- `entry.name || "<Kind>_<index>"`: the fallback fires for an absent and
for an empty (falsy) name. -/
def effectiveName (kind : String) (idx : Nat) (name : Option String) : String :=
  match name with
  | some s => if s == "" then kind ++ "_" ++ toString idx else s
  | none => kind ++ "_" ++ toString idx

/-- The running-set scan: a name already in `seen` is recorded as a
duplicate, a fresh name is added to the set. -/
def collectDups : List String → List String → List String
  | _, [] => []
  | seen, n :: rest =>
    if seen.contains n then n :: collectDups seen rest
    else collectDups (n :: seen) rest

/-- Duplicate effective names of one raw declared list (`none` models an
absent list, which is skipped entirely). -/
def dupNamesOf (kind : String) (entries : Option (List (Option String))) : List String :=
  match entries with
  | none => []
  | some es => collectDups [] (es.enum.map (fun p => effectiveName kind p.1 p.2))

/-- At most one warning per kind, listing the duplicates found. -/
def dupWarning (kindLabel : String) (dups : List String) : List ValidationResult :=
  if dups.isEmpty then []
  else
    [⟨.warning, "Duplicate " ++ kindLabel ++ " names detected",
      some ("Non-unique " ++ kindLabel ++ " names found: " ++ String.intercalate ", " dups ++
        ". This may cause issues in USD workflows.")⟩]

/-- The duplicate-identifier rule over the raw glTF JSON lists. -/
def validateUniqueIds (json : GltfJson) : List ValidationResult :=
  dupWarning "node" (dupNamesOf "Node" json.nodes) ++
  dupWarning "material" (dupNamesOf "Material" json.materials) ++
  dupWarning "mesh" (dupNamesOf "Mesh" json.meshes)

/-! ## Bone-structure rule (`validateBoneStructure`) -/

/-- Whether some track of some clip targets an actual bone of the scene,
resolved by comparing the part of the track name before the first dot
against the bone name and the bone uuid. -/
def hasBoneAnim (scene : Obj) (animations : List AnimationClip) : Bool :=
  animations.any (fun clip =>
    clip.tracks.any (fun track =>
      (traverseList scene).any (fun o =>
        isBone o &&
          (o.name == trackTargetPath track.name || o.uuid == trackTargetPath track.name))))

/-- All bones of the scene, in traversal order. -/
def bonesOf (scene : Obj) : List Obj :=
  (traverseList scene).filter (fun o => isBone o)

/-- The bones none of whose ancestors is itself a bone, in traversal order
(the tree-shaped model of the `bone.parent` walk). -/
def rootBones (scene : Obj) : List Obj :=
  ((withAnc scene []).filter (fun p => isBone p.1 && !(p.2.any (fun a => isBone a)))).map
    Prod.fst

/-- The multiple-root warning, carrying the count and the joined names. -/
def boneRootsWarning (rb : List Obj) : ValidationResult :=
  ⟨.warning, "Multiple bone roots detected",
    some ("Found " ++ toString rb.length ++ " root bones: " ++
      String.intercalate ", " (rb.map (fun b => if b.name == "" then "Unnamed" else b.name)) ++
      ". Multiple bone roots may cause animation to break when converting to USD. Consider using a single root bone for better compatibility.")⟩

/-- The bone-structure rule. -/
def validateBoneStructure (scene : Obj) (animations : List AnimationClip) :
    List ValidationResult :=
  if animations.isEmpty then []
  else if !hasBoneAnim scene animations then []
  else if (bonesOf scene).isEmpty then []
  else if 1 < (rootBones scene).length then [boneRootsWarning (rootBones scene)]
  else []

/-! ## Orchestrator (`validateGLTF`) -/

/-- Outcome of `loader.parse` (plus the surrounding `try`): success hands
the scene, the clip list and the raw JSON to the rules; `err` is the error
callback of `parse`; `exn` is the outer `catch`. -/
inductive ParseOutcome where
  | ok (scene : Obj) (animations : List AnimationClip) (json : GltfJson)
  | err (message : String)
  | exn (message : String)

/-- Observable output of one `validateGLTF` run: the final `results` list,
the argument lists of every invocation of the caller-supplied
`onValidationComplete` callback, and the two summary counters (which stay
`none` on failure). -/
structure RunOutput where
  results : List ValidationResult
  callbackArgs : List (List ValidationResult)
  polygonCount : Option Int
  meshCount : Option Nat
deriving DecidableEq

/-- The single error finding of the `parse` error callback. -/
def parseErrorFinding (msg : String) : ValidationResult :=
  ⟨.error, "Failed to load GLTF file", some msg⟩

/-- The single error finding of the outer `catch`. -/
def processErrorFinding (msg : String) : ValidationResult :=
  ⟨.error, "Error occurred while processing file", some msg⟩

/-- The orchestrator: on success it runs the nine rules in source order
against the same scene snapshot and invokes the callback once with the full
list; on either failure it records the single error finding and invokes the
callback not at all. -/
def validateGLTF : ParseOutcome → RunOutput
  | .ok scene animations json =>
    let rs :=
      validateTextures scene ++
      (validatePolygonCount scene).1 ++
      (validateMeshCount scene).1 ++
      validateScaleValues scene ++
      validateAnimations animations ++
      validateMeshHierarchy scene ++
      validateObjectNames scene ++
      validateUniqueIds json ++
      validateBoneStructure scene animations
    { results := rs, callbackArgs := [rs],
      polygonCount := some (validatePolygonCount scene).2,
      meshCount := some (validateMeshCount scene).2 }
  | .err msg =>
    { results := [parseErrorFinding msg], callbackArgs := [],
      polygonCount := none, meshCount := none }
  | .exn msg =>
    { results := [processErrorFinding msg], callbackArgs := [],
      polygonCount := none, meshCount := none }

/-! ## Definitions following the words of the spec, for comparison -/

/-- Modelled from the spec: the textures referenced by any mesh material,
with the full slot set of the data model section (base-color `map`, normal,
roughness, metalness, emissive, ambient-occlusion), deduplicated by
reference.  Stated from the spec words only to compare claim C2 as written
against `collectTextures`, which is translated from the code. -/
def specReferencedTextures (scene : Obj) : List Texture :=
  dedupTex [] ((traverseList scene).flatMap (fun o =>
    (meshMaterials o).flatMap (fun m =>
      [m.map, m.normalMap, m.roughnessMap, m.metalnessMap, m.emissiveMap, m.aoMap].filterMap
        id)))

/-- Modelled from the spec: the inferred source format "derived from the
file-extension suffix of its source reference, case-insensitively" is one
of `.jpg`, `.jpeg`, `.png`.  Stated from the spec words only to compare
claim C3 as written against `srcFormatHit`, which is translated from the
code. -/
def specFormatFlagged (src : String) : Bool :=
  strEndsWithSub (lowerAscii src) ".jpg" || strEndsWithSub (lowerAscii src) ".jpeg" ||
    strEndsWithSub (lowerAscii src) ".png"

/-! ## Concrete sample data used in witnesses and counterexamples -/

/-- A minimal scene: a root group with one mesh child whose position
attribute has `c` entries. -/
def sampleMeshScene (c : Nat) : Obj :=
  .mk "Scene" "uuid-scene" .group 1 1 1
    [.mk "Mesh1" "uuid-mesh" (.mesh (some ⟨some c⟩) []) 1 1 1 []]

/-- A 3000 x 3000 texture referenced only through an emissive slot. -/
def emissiveOnlyTexture : Texture := ⟨1, "BigEmissive", some ⟨3000, 3000, none⟩⟩

/-- A scene whose one mesh has a standard material referencing
`emissiveOnlyTexture` only through the `emissiveMap` slot. -/
def emissiveOnlyScene : Obj :=
  .mk "Scene" "uuid-scene" .group 1 1 1
    [.mk "Mesh1" "uuid-mesh"
      (.mesh (some ⟨some 3⟩)
        [⟨"Mat", true, none, none, none, none, some emissiveOnlyTexture, none⟩])
      1 1 1 []]

/-- A large texture referenced through the base-color slot. -/
def bigMapTexture : Texture := ⟨4, "BigMap", some ⟨2500, 100, none⟩⟩

/-- A scene referencing `bigMapTexture` through the base-color slot of a
standard material. -/
def bigMapScene : Obj :=
  .mk "Scene" "uuid-scene" .group 1 1 1
    [.mk "Mesh1" "uuid-mesh"
      (.mesh (some ⟨some 3⟩)
        [⟨"Mat", true, some bigMapTexture, none, none, none, none, none⟩])
      1 1 1 []]

/-- A small texture whose source reference contains `".png"` without having
it as the extension suffix. -/
def ktxTexture : Texture := ⟨2, "Packed", some ⟨64, 64, some "model.png.ktx2"⟩⟩

/-- A scene whose one mesh has a standard material with `ktxTexture` in the
base-color slot. -/
def ktxScene : Obj :=
  .mk "Scene" "uuid-scene" .group 1 1 1
    [.mk "Mesh1" "uuid-mesh"
      (.mesh (some ⟨some 3⟩)
        [⟨"Mat", true, some ktxTexture, none, none, none, none, none⟩])
      1 1 1 []]

/-- A small texture with an uppercase JPEG source reference. -/
def jpgTexture : Texture := ⟨3, "Photo", some ⟨64, 64, some "PHOTO.JPG"⟩⟩

/-- A scene referencing `jpgTexture` through the base-color slot. -/
def jpgScene : Obj :=
  .mk "Scene" "uuid-scene" .group 1 1 1
    [.mk "Mesh1" "uuid-mesh"
      (.mesh (some ⟨some 3⟩)
        [⟨"Mat", true, some jpgTexture, none, none, none, none, none⟩])
      1 1 1 []]

/-- A scene consisting of a single node whose name has a non-ASCII letter
and a space. -/
def aermScene : Obj := .mk "Ärm 1" "uuid-a" .group 1 1 1 []

/-- A scene with two sibling root bones under a plain group. -/
def twoRootBoneScene : Obj :=
  .mk "Scene" "uuid-scene" .group 1 1 1
    [.mk "BoneA" "uuid-bone-a" .bone 1 1 1 [],
     .mk "BoneB" "uuid-bone-b" .bone 1 1 1 []]

/-- A scene with a single root bone whose child is another bone. -/
def oneRootBoneScene : Obj :=
  .mk "Scene" "uuid-scene" .group 1 1 1
    [.mk "BoneA" "uuid-bone-a" .bone 1 1 1
      [.mk "BoneB" "uuid-bone-b" .bone 1 1 1 []]]

/-- A clip whose single track targets `BoneA.scale` and starts at zero. -/
def boneScaleClip : AnimationClip := ⟨"Walk", [⟨"BoneA.scale", [0, 1, 1]⟩]⟩

/-- A clip whose scale track stores a single value `0` (fewer than three
components). -/
def shortScaleClip : AnimationClip := ⟨"Blink", [⟨"BoneA.scale", [0]⟩]⟩

/-- The raw glTF JSON document with no declared lists. -/
def emptyJson : GltfJson := ⟨none, none, none⟩

/-! ## Helper lemmas about the string models -/

theorem listStartsWith_self (l : List Char) : listStartsWith l l = true := by
  induction l with
  | nil => rfl
  | cons a as ih => simp [listStartsWith, ih]

theorem listStartsWith_nil (l : List Char) : listStartsWith l [] = true := by
  cases l <;> rfl

theorem listStartsWith_append (pat t : List Char) : listStartsWith (pat ++ t) pat = true := by
  induction pat generalizing t with
  | nil => exact listStartsWith_nil t
  | cons a as ih => simp [listStartsWith, ih]

theorem listContainsSeq_of_startsWith (l pat : List Char)
    (h : listStartsWith l pat = true) : listContainsSeq l pat = true := by
  cases l with
  | nil => simpa [listContainsSeq] using h
  | cons a rest => simp [listContainsSeq, h]

theorem listContainsSeq_append_left (xs ys pat : List Char)
    (h : listContainsSeq ys pat = true) : listContainsSeq (xs ++ ys) pat = true := by
  induction xs with
  | nil => simpa using h
  | cons a rest ih =>
    have : listContainsSeq (a :: (rest ++ ys)) pat =
        (listStartsWith (a :: (rest ++ ys)) pat || listContainsSeq (rest ++ ys) pat) := rfl
    simp only [List.cons_append, this, Bool.or_eq_true]
    exact Or.inr ih

theorem listStartsWith_exists (l pat : List Char) (h : listStartsWith l pat = true) :
    ∃ t, l = pat ++ t := by
  induction pat generalizing l with
  | nil => exact ⟨l, rfl⟩
  | cons b bs ih =>
    cases l with
    | nil => simp [listStartsWith] at h
    | cons a as =>
      simp only [listStartsWith, Bool.and_eq_true, beq_iff_eq] at h
      obtain ⟨h1, h2⟩ := h
      obtain ⟨t, ht⟩ := ih as h2
      exact ⟨t, by simp [h1, ht]⟩

theorem strContains_append_right (a b : String) : strContainsSub (a ++ b) b = true := by
  unfold strContainsSub
  have hl : (a ++ b).toList = a.toList ++ b.toList := rfl
  rw [hl]
  exact listContainsSeq_append_left _ _ _
    (listContainsSeq_of_startsWith _ _ (listStartsWith_self _))

theorem strContains_of_endsWith (s pat : String) (h : strEndsWithSub s pat = true) :
    strContainsSub s pat = true := by
  unfold strEndsWithSub at h
  obtain ⟨t, ht⟩ := listStartsWith_exists _ _ h
  have hs : s.toList = t.reverse ++ pat.toList := by
    have h2 := congrArg List.reverse ht
    simpa using h2
  unfold strContainsSub
  rw [hs]
  exact listContainsSeq_append_left _ _ _
    (listContainsSeq_of_startsWith _ _ (listStartsWith_self _))

/-! ## Claim C1 — orchestrator callback and parse failure -/

/-- Counterexample to claim C1 as stated: on a parse failure the
caller-supplied completion callback is invoked zero times, not exactly
once, even though the finding list does have length 1.  The error callback
of `loader.parse` pushes the error finding and calls `setResults`, but
never calls `onValidationComplete`. -/
theorem c1_callback_counterexample :
    (validateGLTF (ParseOutcome.err "Invalid GLB bytes")).callbackArgs.length = 0 ∧
    (validateGLTF (ParseOutcome.err "Invalid GLB bytes")).results.length = 1 :=
  ⟨rfl, rfl⟩

/-- C1 (amended): when parsing succeeds the caller-supplied completion
callback is invoked exactly once, with the full finding list; when parsing
fails the finding list has length 1 and its single finding has severity
`error`, but the callback is not invoked at all (the findings are exposed
through the results state instead). -/
theorem c1_callback_amended (scene : Obj) (animations : List AnimationClip)
    (json : GltfJson) (msg : String) :
    (validateGLTF (.ok scene animations json)).callbackArgs =
      [(validateGLTF (.ok scene animations json)).results] ∧
    (validateGLTF (.err msg)).results = [parseErrorFinding msg] ∧
    (validateGLTF (.err msg)).results.length = 1 ∧
    (parseErrorFinding msg).type = Severity.error ∧
    (validateGLTF (.err msg)).callbackArgs = [] :=
  ⟨rfl, rfl, rfl, rfl, rfl⟩

/-! ## Claim C9 — fixed order and determinism of the rule sequence -/

/-- C9: the orchestrator runs the rules in the fixed source order (texture,
polygon count, mesh count, scale sign, animation scale, hierarchy depth,
naming, duplicate-identifier, bone structure) over the same immutable
input, and two runs over the same input produce the same ordered finding
list and the same polygon and mesh summaries — in this embedding every
rule is a pure function of the scene snapshot, so a second run is the
selfsame value. -/
theorem c9_deterministic_rule_order (scene : Obj) (animations : List AnimationClip)
    (json : GltfJson) :
    (validateGLTF (.ok scene animations json)).results =
      validateTextures scene ++ (validatePolygonCount scene).1 ++
      (validateMeshCount scene).1 ++ validateScaleValues scene ++
      validateAnimations animations ++ validateMeshHierarchy scene ++
      validateObjectNames scene ++ validateUniqueIds json ++
      validateBoneStructure scene animations ∧
    (validateGLTF (.ok scene animations json)).results =
      (validateGLTF (.ok scene animations json)).results ∧
    (validateGLTF (.ok scene animations json)).polygonCount =
      some (validatePolygonCount scene).2 ∧
    (validateGLTF (.ok scene animations json)).meshCount =
      some (validateMeshCount scene).2 := by
  refine ⟨?_, rfl, rfl, rfl⟩
  show (validateTextures scene ++ (validatePolygonCount scene).1 ++
      (validateMeshCount scene).1 ++ validateScaleValues scene ++
      validateAnimations animations ++ validateMeshHierarchy scene ++
      validateObjectNames scene ++ validateUniqueIds json ++
      validateBoneStructure scene animations) = _
  rfl

/-! ## Claim C7 — duplicate-identifier rule -/

/-- C7: the duplicate-identifier rule treats the three raw declared lists
independently, gives unnamed entries the fallback name `<Kind>_<index>`,
detects repeats with a running set, emits at most one warning per kind
(none when that kind has no duplicates), and on the raw node names
`["Box", "Box", "Sphere"]` emits exactly one node warning whose detail
contains `"Box"` exactly once. -/
theorem c7_duplicate_identifier :
    (∀ json : GltfJson, validateUniqueIds json =
      dupWarning "node" (dupNamesOf "Node" json.nodes) ++
      dupWarning "material" (dupNamesOf "Material" json.materials) ++
      dupWarning "mesh" (dupNamesOf "Mesh" json.meshes)) ∧
    (∀ kindLabel dups, (dupWarning kindLabel dups).length ≤ 1 ∧
      (dupWarning kindLabel dups = [] ↔ dups = [])) ∧
    (∀ kind idx, effectiveName kind idx none = kind ++ "_" ++ toString idx) ∧
    dupNamesOf "Node" (some [some "Box", some "Box", some "Sphere"]) = ["Box"] ∧
    validateUniqueIds ⟨some [some "Box", some "Box", some "Sphere"], none, none⟩ =
      [⟨.warning, "Duplicate node names detected",
        some "Non-unique node names found: Box. This may cause issues in USD workflows."⟩] ∧
    countOccur "Non-unique node names found: Box. This may cause issues in USD workflows."
      "Box" = 1 := by
  refine ⟨fun _ => rfl, fun kindLabel dups => ⟨?_, ?_⟩, fun _ _ => rfl, by decide, by decide,
    by decide⟩
  · unfold dupWarning
    split <;> simp
  · unfold dupWarning
    split <;> rename_i h
    · rw [List.isEmpty_iff] at h
      simp [h]
    · rw [List.isEmpty_iff] at h
      simp [h]

/-! ## Claim C4 — polygon-count rule -/

theorem sum_map_div_three (l : List Nat) :
    ((l.map (fun (c : Nat) => (c : Rat) / 3)).sum) = ((l.sum : Rat) / 3) := by
  induction l with
  | nil => simp
  | cons a as ih =>
    simp only [List.map_cons, List.sum_cons, ih, Nat.cast_add, add_div]

theorem totalPolygonsRat_eq (scene : Obj) :
    totalPolygonsRat scene = (posSum scene : Rat) / 3 := by
  unfold totalPolygonsRat posSum
  exact sum_map_div_three _

theorem total_gt_iff (scene : Obj) :
    ((50000 : Rat) < totalPolygonsRat scene) ↔ 150000 < posSum scene := by
  have h3 : (0 : Rat) < 3 := by norm_num
  rw [totalPolygonsRat_eq, lt_div_iff₀ h3]
  constructor
  · intro h
    have hc : ((150000 : Nat) : Rat) < (posSum scene : Rat) := by push_cast; linarith
    exact_mod_cast hc
  · intro h
    have hc : ((150000 : Nat) : Rat) < (posSum scene : Rat) := by exact_mod_cast h
    push_cast at hc
    linarith

/-- C4: the polygon-count rule returns `Math.round` of the total triangle
count (the sum over meshes of position-entry count over 3), warns exactly
when the unrounded total exceeds 50,000 — equivalently when the summed
position-entry count exceeds 150,000 — with a single warning carrying the
rounded count, and that returned number is the polygon-count summary the
orchestrator exposes. -/
theorem c4_polygon_count (scene : Obj) (animations : List AnimationClip)
    (json : GltfJson) :
    (validatePolygonCount scene).2 = jsRound ((posSum scene : Rat) / 3) ∧
    (((50000 : Rat) < (posSum scene : Rat) / 3) ↔ 150000 < posSum scene) ∧
    (150000 < posSum scene →
      (validatePolygonCount scene).1 = [polygonWarning ((validatePolygonCount scene).2)]) ∧
    (posSum scene ≤ 150000 → (validatePolygonCount scene).1 = []) ∧
    (validateGLTF (.ok scene animations json)).polygonCount =
      some (validatePolygonCount scene).2 := by
  have hiff := total_gt_iff scene
  refine ⟨?_, ?_, ?_, ?_, rfl⟩
  · show jsRound (totalPolygonsRat scene) = _
    rw [totalPolygonsRat_eq]
  · rw [← totalPolygonsRat_eq]
    exact hiff
  · intro h
    have hc : (50000 : Rat) < totalPolygonsRat scene := hiff.mpr h
    show (if (50000 : Rat) < totalPolygonsRat scene then
        [polygonWarning (jsRound (totalPolygonsRat scene))] else []) = _
    rw [if_pos hc]
    rfl
  · intro h
    have hc : ¬ (50000 : Rat) < totalPolygonsRat scene := by
      rw [hiff]
      omega
    show (if (50000 : Rat) < totalPolygonsRat scene then
        [polygonWarning (jsRound (totalPolygonsRat scene))] else []) = _
    rw [if_neg hc]

theorem posSum_sampleMeshScene (c : Nat) : posSum (sampleMeshScene c) = c := by
  simp [posSum, posCounts, sampleMeshScene, traverseList, traverseListMany, meshPosCount,
    Obj.kind, List.filterMap_cons]

theorem jsRound_50001 : jsRound ((((150003 : Nat)) : Rat) / 3) = 50001 := by
  unfold jsRound
  rw [Int.floor_eq_iff]
  norm_num

theorem jsRound_50000 : jsRound ((((150000 : Nat)) : Rat) / 3) = 50000 := by
  unfold jsRound
  rw [Int.floor_eq_iff]
  norm_num

/-- Witness for C4 at the spec boundary: a scene of exactly 50,001
triangles (150,003 position entries) warns with rounded count 50,001,
while a scene of exactly 50,000 triangles does not warn. -/
theorem c4_polygon_witness :
    150000 < posSum (sampleMeshScene 150003) ∧
    (validatePolygonCount (sampleMeshScene 150003)).1 =
      [polygonWarning ((validatePolygonCount (sampleMeshScene 150003)).2)] ∧
    (validatePolygonCount (sampleMeshScene 150003)).2 = 50001 ∧
    posSum (sampleMeshScene 150000) ≤ 150000 ∧
    (validatePolygonCount (sampleMeshScene 150000)).1 = [] ∧
    (validatePolygonCount (sampleMeshScene 150000)).2 = 50000 := by
  have h3 : posSum (sampleMeshScene 150003) = 150003 := posSum_sampleMeshScene _
  have h0 : posSum (sampleMeshScene 150000) = 150000 := posSum_sampleMeshScene _
  refine ⟨by omega, ?_, ?_, by omega, ?_, ?_⟩
  · exact (c4_polygon_count (sampleMeshScene 150003) [] emptyJson).2.2.1 (by omega)
  · rw [(c4_polygon_count (sampleMeshScene 150003) [] emptyJson).1, h3]
    exact jsRound_50001
  · exact (c4_polygon_count (sampleMeshScene 150000) [] emptyJson).2.2.2.1 (by omega)
  · rw [(c4_polygon_count (sampleMeshScene 150000) [] emptyJson).1, h0]
    exact jsRound_50000

/-! ## Claims C5 and C10 — animation-scale rule -/

theorem jsMin3_cons (v0 v1 v2 : Rat) (rest : List Rat) :
    jsMin3 (v0 :: v1 :: v2 :: rest) = .num (min v0 (min v1 v2)) := rfl

/-- C5: for any track whose name is a target followed by the property
suffix `.scale`, and whose value array has a full first keyframe, the
animation-scale rule emits the warning naming the clip exactly when the
minimum of the first three stored values is exactly zero; the finding
depends only on those first three values (later keyframes are never
inspected); and the rule is the per-clip, per-track concatenation of these
independent per-track findings. -/
theorem c5_animation_scale (clips : List AnimationClip) (clip : AnimationClip)
    (target : String) (v0 v1 v2 : Rat) (rest : List Rat) (name : String)
    (hname : name = target ++ ".scale") :
    validateAnimations clips =
      clips.flatMap (fun c => c.tracks.filterMap (animTrackFinding c)) ∧
    (animTrackFinding clip ⟨name, v0 :: v1 :: v2 :: rest⟩ =
      if min v0 (min v1 v2) = 0 then some (scaleAnimWarning clip.name) else none) ∧
    animTrackFinding clip ⟨name, v0 :: v1 :: v2 :: rest⟩ =
      animTrackFinding clip ⟨name, [v0, v1, v2]⟩ ∧
    (scaleAnimWarning clip.name).details =
      some ("Animation \"" ++ clip.name ++
        "\" has scale starting value set to 0. This may cause object distortion.") := by
  subst hname
  refine ⟨rfl, ?_, rfl, rfl⟩
  unfold animTrackFinding
  rw [if_pos (strContains_append_right target ".scale")]
  show (if (v0 :: v1 :: v2 :: rest : List Rat).isEmpty = true then none
      else if jsMin3 (v0 :: v1 :: v2 :: rest) = JSNum.num 0 then
        some (scaleAnimWarning clip.name)
      else none) = _
  rw [jsMin3_cons]
  by_cases h : min v0 (min v1 v2) = 0
  · simp [h]
  · simp [h]

/-- Witness for C5: the clip `Walk` with the single track
`BoneA.scale = [0, 1, 1]` produces exactly the one warning naming the
clip. -/
theorem c5_animation_witness :
    ("BoneA.scale" : String) = "BoneA" ++ ".scale" ∧
    validateAnimations [boneScaleClip] = [scaleAnimWarning "Walk"] ∧
    animTrackFinding boneScaleClip ⟨"BoneA.scale", [0, 1, 1]⟩ =
      (if min (0 : Rat) (min 1 1) = 0 then some (scaleAnimWarning boneScaleClip.name)
       else none) :=
  ⟨by decide, by decide,
   (c5_animation_scale [boneScaleClip] boneScaleClip "BoneA" 0 1 1 [] "BoneA.scale"
     (by decide)).2.1⟩

/-- C10: a `.scale`-named track with a nonempty value array of fewer than
three values produces no finding: the out-of-range reads of the missing
second or third component yield `NaN`, the computed minimum is `NaN` (in
particular never exactly zero), and the rule is total on such inputs. -/
theorem c10_short_scale_track_total (clip : AnimationClip) (track : Track)
    (hne : track.values ≠ []) (hlen : track.values.length < 3) :
    animTrackFinding clip track = none ∧ jsMin3 track.values = JSNum.nan := by
  obtain ⟨name, values⟩ := track
  have hnan : jsMin3 values = JSNum.nan := by
    match values with
    | [] => exact absurd rfl hne
    | [a] => rfl
    | [a, b] => rfl
    | a :: b :: c :: rest => simp at hlen; omega
  refine ⟨?_, hnan⟩
  unfold animTrackFinding
  by_cases hc : strContainsSub name ".scale" = true
  · rw [if_pos hc]
    show (if values.isEmpty = true then none
        else if jsMin3 values = JSNum.num 0 then some (scaleAnimWarning clip.name)
        else none) = none
    rw [hnan]
    have hie : values.isEmpty = false := by
      cases values with
      | nil => exact absurd rfl hne
      | cons a t => rfl
    rw [hie]
    simp
  · rw [if_neg hc]

/-- Witness for C10: the clip `Blink` whose scale track stores the single
value `0` yields no finding at all. -/
theorem c10_short_scale_witness :
    animTrackFinding shortScaleClip ⟨"BoneA.scale", [0]⟩ = none ∧
    validateAnimations [shortScaleClip] = [] :=
  ⟨(c10_short_scale_track_total shortScaleClip ⟨"BoneA.scale", [0]⟩
      (by decide) (by decide)).1,
   by decide⟩

/-! ## Claim C2 — texture-size check -/

/-- Counterexample to claim C2 as stated: `emissiveOnlyTexture` (3000 x
3000 pixels, far above the 2001 threshold) is the one distinct texture
referenced by a mesh material of `emissiveOnlyScene` — through the
emissive slot of the data model — yet the texture rule emits no finding at
all, because it only collects the base-color, normal, roughness and
metalness slots. -/
theorem c2_texture_size_counterexample :
    specReferencedTextures emissiveOnlyScene = [emissiveOnlyTexture] ∧
    emissiveOnlyTexture.image = some ⟨3000, 3000, none⟩ ∧
    collectTextures emissiveOnlyScene = [] ∧
    validateTextures emissiveOnlyScene = [] :=
  ⟨by decide, by decide, by decide, by decide⟩

/-- C2 (amended): for every distinct texture the rule collects — those
referenced through the base-color, normal, roughness or metalness slot of
a standard material of a mesh, deduplicated by reference — with a present
image, the size warning naming the texture (or the `"Unnamed texture"`
fallback) and its exact width and height is emitted exactly when pixel
width or height is 2001 or more; textures below that size in both
dimensions yield no size finding. -/
theorem c2_texture_size_amended (scene : Obj) (t : Texture) (img : Image)
    (himg : t.image = some img) :
    validateTextures scene =
      (collectTextures scene).flatMap (fun u => sizeFindings u ++ formatFindings u) ∧
    (2001 ≤ img.width ∨ 2001 ≤ img.height →
      sizeFindings t =
        [sizeWarning (if t.name == "" then "Unnamed texture" else t.name)
          img.width img.height]) ∧
    (img.width < 2001 → img.height < 2001 → sizeFindings t = []) := by
  refine ⟨rfl, ?_, ?_⟩
  · intro h
    unfold sizeFindings
    rw [himg]
    exact if_pos h
  · intro hw hh
    unfold sizeFindings
    rw [himg]
    exact if_neg (by omega)

/-- Witness for C2 (amended), applied to the 2500 x 100 base-color texture
of `bigMapScene`. -/
theorem c2_texture_size_witness :
    bigMapTexture.image = some ⟨2500, 100, none⟩ ∧
    sizeFindings bigMapTexture = [sizeWarning "BigMap" 2500 100] ∧
    validateTextures bigMapScene = [sizeWarning "BigMap" 2500 100] := by
  refine ⟨rfl, ?_, by decide⟩
  have h := (c2_texture_size_amended bigMapScene bigMapTexture ⟨2500, 100, none⟩ rfl).2.1
    (by decide)
  exact h

/-! ## Claim C3 — texture-format check -/

/-- Counterexample to claim C3 as stated: the source reference
`model.png.ktx2` has extension suffix `.ktx2`, which is none of `.jpg`,
`.jpeg`, `.png`, yet the texture rule emits the format warning for it,
because the code tests case-insensitive substring containment rather than
the extension suffix. -/
theorem c3_texture_format_counterexample :
    specFormatFlagged "model.png.ktx2" = false ∧
    srcFormatHit "model.png.ktx2" = true ∧
    validateTextures ktxScene = [formatWarning] :=
  ⟨by decide, by decide, by decide⟩

/-- C3 (amended): for every distinct collected texture with a present
image and a truthy source reference, the format warning is emitted exactly
when the lowercased source reference contains one of the substrings
`.jpg`, `.jpeg`, `.png`; moreover every reference whose lowercased form
ends with one of the three extensions (the spec reading) also contains the
matching substring, so the code flags a superset of the spec reading and
never misses a genuinely `.jpg`/`.jpeg`/`.png`-suffixed reference. -/
theorem c3_texture_format_amended (t : Texture) (img : Image) (src : String)
    (himg : t.image = some img) (hsrc : img.src = some src)
    (hne : (src == "") = false) :
    (srcFormatHit src = true → formatFindings t = [formatWarning]) ∧
    (srcFormatHit src = false → formatFindings t = []) ∧
    (∀ s : String, specFormatFlagged s = true → srcFormatHit s = true) := by
  refine ⟨?_, ?_, ?_⟩
  · intro h
    simp [formatFindings, himg, hsrc, hne, h]
  · intro h
    simp [formatFindings, himg, hsrc, hne, h]
  · intro s hs
    unfold specFormatFlagged at hs
    unfold srcFormatHit
    simp only [Bool.or_eq_true] at hs ⊢
    rcases hs with (h | h) | h
    · exact Or.inl (Or.inl (strContains_of_endsWith _ _ h))
    · exact Or.inl (Or.inr (strContains_of_endsWith _ _ h))
    · exact Or.inr (strContains_of_endsWith _ _ h)

/-- Witness for C3 (amended), applied to the uppercase reference
`PHOTO.JPG` of `jpgScene`. -/
theorem c3_texture_format_witness :
    srcFormatHit "PHOTO.JPG" = true ∧
    formatFindings jpgTexture = [formatWarning] ∧
    validateTextures jpgScene = [formatWarning] :=
  ⟨by decide,
   (c3_texture_format_amended jpgTexture ⟨64, 64, some "PHOTO.JPG"⟩ "PHOTO.JPG" rfl rfl
     (by decide)).1 (by decide),
   by decide⟩

/-! ## Claim C8 — naming-convention rule -/

/-- C8: the naming rule is the per-object concatenation of independent
checks over the traversal, and for any nonempty object name containing
both a non-ASCII code point and a space the two checks each emit their own
warning — exactly two separate findings, with no deduplication or
normalization. -/
theorem c8_naming_convention (scene : Obj) (name : String)
    (hne : (name != "") = true) (hna : hasNonAscii name = true)
    (hsp : hasSpace name = true) :
    validateObjectNames scene = (traverseList scene).flatMap objFindings ∧
    objectNameChecks name =
      [⟨.warning, "Non-ASCII characters in object name",
        some ("Object \"" ++ name ++
          "\" contains non-ASCII characters. Consider using ASCII names for better USD compatibility.")⟩,
       ⟨.warning, "Space character in object name",
        some ("Object \"" ++ name ++
          "\" contains spaces. Consider using underscores or camelCase for better USD compatibility.")⟩] ∧
    (objectNameChecks name).length = 2 := by
  have h2 : objectNameChecks name =
      [⟨.warning, "Non-ASCII characters in object name",
        some ("Object \"" ++ name ++
          "\" contains non-ASCII characters. Consider using ASCII names for better USD compatibility.")⟩,
       ⟨.warning, "Space character in object name",
        some ("Object \"" ++ name ++
          "\" contains spaces. Consider using underscores or camelCase for better USD compatibility.")⟩] := by
    simp [objectNameChecks, hne, hna, hsp]
  exact ⟨rfl, h2, by rw [h2]; rfl⟩

set_option maxRecDepth 8192 in
/-- Witness for C8: the single node named `"Ärm 1"` yields exactly the
non-ASCII warning and the space warning, in that order. -/
theorem c8_naming_witness :
    validateObjectNames aermScene =
      [⟨.warning, "Non-ASCII characters in object name",
        some "Object \"Ärm 1\" contains non-ASCII characters. Consider using ASCII names for better USD compatibility."⟩,
       ⟨.warning, "Space character in object name",
        some "Object \"Ärm 1\" contains spaces. Consider using underscores or camelCase for better USD compatibility."⟩] ∧
    (objectNameChecks "Ärm 1").length = 2 :=
  ⟨by decide,
   (c8_naming_convention aermScene "Ärm 1" (by decide) (by decide) (by decide)).2.2⟩

/-! ## Claim C6 — bone-structure rule -/

/-- C6: the bone-structure rule emits nothing when the clip list is empty
or when no track target resolves to a bone; otherwise it emits exactly the
one multiple-roots warning (carrying the root count and the joined root
names) precisely when more than one root bone exists, and nothing when
there is at most one root bone. -/
theorem c6_bone_structure (scene : Obj) (animations : List AnimationClip) :
    (animations = [] → validateBoneStructure scene animations = []) ∧
    (hasBoneAnim scene animations = false →
      validateBoneStructure scene animations = []) ∧
    (animations ≠ [] → hasBoneAnim scene animations = true →
      ((rootBones scene).length ≤ 1 → validateBoneStructure scene animations = []) ∧
      (1 < (rootBones scene).length →
        validateBoneStructure scene animations = [boneRootsWarning (rootBones scene)])) := by
  refine ⟨?_, ?_, ?_⟩
  · intro h
    subst h
    rfl
  · intro h
    simp [validateBoneStructure, h]
  · intro hne hba
    have hie : animations.isEmpty = false := by
      cases animations with
      | nil => exact absurd rfl hne
      | cons a t => rfl
    have hbones : (bonesOf scene).isEmpty = false := by
      simp only [hasBoneAnim, List.any_eq_true] at hba
      obtain ⟨clip, _, track, _, o, ho, hcond⟩ := hba
      have hb : isBone o = true := by
        simp only [Bool.and_eq_true] at hcond
        exact hcond.1
      have hmem : o ∈ bonesOf scene := List.mem_filter.mpr ⟨ho, hb⟩
      cases hq : bonesOf scene with
      | nil =>
        rw [hq] at hmem
        exact absurd hmem (List.not_mem_nil o)
      | cons x xs => rfl
    constructor
    · intro hle
      have hnot : ¬ 1 < (rootBones scene).length := by omega
      simp [validateBoneStructure, hie, hba, hbones, hnot]
    · intro hgt
      simp [validateBoneStructure, hie, hba, hbones, hgt]

set_option maxRecDepth 8192 in
/-- Witness for C6: two sibling root bones with a scale track targeting
`BoneA` yield exactly one warning listing both names; a single root bone
with the same track yields nothing. -/
theorem c6_bone_witness :
    hasBoneAnim twoRootBoneScene [boneScaleClip] = true ∧
    (rootBones twoRootBoneScene).map Obj.name = ["BoneA", "BoneB"] ∧
    validateBoneStructure twoRootBoneScene [boneScaleClip] =
      [boneRootsWarning (rootBones twoRootBoneScene)] ∧
    (boneRootsWarning (rootBones twoRootBoneScene)).details =
      some "Found 2 root bones: BoneA, BoneB. Multiple bone roots may cause animation to break when converting to USD. Consider using a single root bone for better compatibility." ∧
    (rootBones oneRootBoneScene).length = 1 ∧
    validateBoneStructure oneRootBoneScene [boneScaleClip] = [] := by
  refine ⟨by decide, by decide, ?_, by decide, by decide, ?_⟩
  · exact ((c6_bone_structure twoRootBoneScene [boneScaleClip]).2.2 (by decide)
      (by decide)).2 (by decide)
  · exact ((c6_bone_structure oneRootBoneScene [boneScaleClip]).2.2 (by decide)
      (by decide)).1 (by decide)

end GltfUsd
